import Mathlib

/-!
Verification of the pySwitchbot protocol core: a shallow embedding of the
advertisement codec (`switchbot/adv_parser.py` and the decoders under
`switchbot/adv_parsers/`), the command engine retry loop and result checker
(`switchbot/devices/device.py`), and the lock session-encryption subsystem
(`switchbot/devices/lock.py`).

Bytes are modelled as `Nat` values (callers of the real code always pass
values below 256; masks such as `&&& 127` are taken verbatim from the
source).  Python `bytes | None` becomes `Option (List Nat)`; code paths that
raise an exception return `Except.error`.
-/

namespace PySwitchbot

/-! ### Codec registry (`switchbot/adv_parser.py`, `SUPPORTED_TYPES`) -/

/-- The `SwitchbotModel` enum from `switchbot/const.py`. -/
inductive SwitchbotModel where
  | bot
  | curtain
  | humidifier
  | plugMini
  | contactSensor
  | lightStrip
  | meter
  | meterPro
  | meterProC
  | ioMeter
  | motionSensor
  | colorBulb
  | ceilingLight
  | lock
  | lockPro
  | blindTilt
  | hub2
  | keypad
  | relaySwitch1PM
  | relaySwitch1
  deriving DecidableEq, Repr

/-- One registry entry of `SUPPORTED_TYPES`: the model name, the expected
manufacturer id, and (only for the humidifier) the expected
manufacturer-data length used by the passive disambiguation heuristic.
The decode function itself is dispatched separately (see `parseDataWith`),
and the friendly-name string carries no logic, so neither is stored here. -/
structure SupportedType where
  modelName : SwitchbotModel
  mfrId : Option Nat
  mfrLen : Option Nat
  deriving DecidableEq, Repr

/-- `SUPPORTED_TYPES` in source order, keyed by the model tag's character
code (`100 = d`, `72 = H`, `115 = s`, `114 = r`, `123` = the curtain-3 tag,
`99 = c`, `119 = w`, `105 = i`, `84 = T`, `52 = 4`, `53 = 5`, `118 = v`,
`103 = g`, `106 = j`, `117 = u`, `113 = q`, `110 = n`, `101 = e`,
`111 = o`, `36` = the lock-pro tag, `120 = x`, `121 = y`, `60 = <`,
`59 = ;`). -/
def SUPPORTED_TYPES : List (Nat × SupportedType) :=
  [ (100, ⟨.contactSensor, some 2409, none⟩),
    (72, ⟨.bot, some 89, none⟩),
    (115, ⟨.motionSensor, some 2409, none⟩),
    (114, ⟨.lightStrip, some 2409, none⟩),
    (123, ⟨.curtain, some 2409, none⟩),
    (99, ⟨.curtain, some 2409, none⟩),
    (119, ⟨.ioMeter, some 2409, none⟩),
    (105, ⟨.meter, some 2409, none⟩),
    (84, ⟨.meter, some 2409, none⟩),
    (52, ⟨.meterPro, some 2409, none⟩),
    (53, ⟨.meterProC, some 2409, none⟩),
    (118, ⟨.hub2, some 2409, none⟩),
    (103, ⟨.plugMini, some 2409, none⟩),
    (106, ⟨.plugMini, some 2409, none⟩),
    (117, ⟨.colorBulb, some 2409, none⟩),
    (113, ⟨.ceilingLight, some 2409, none⟩),
    (110, ⟨.ceilingLight, some 2409, none⟩),
    (101, ⟨.humidifier, some 741, some 6⟩),
    (111, ⟨.lock, some 2409, none⟩),
    (36, ⟨.lockPro, some 2409, none⟩),
    (120, ⟨.blindTilt, some 2409, none⟩),
    (121, ⟨.keypad, some 2409, none⟩),
    (60, ⟨.relaySwitch1PM, some 2409, none⟩),
    (59, ⟨.relaySwitch1, some 2409, none⟩) ]

/-- `_SWITCHBOT_MODEL_TO_CHAR`: a dict comprehension over `SUPPORTED_TYPES`,
so a model appearing under several tags maps to the **last** tag in source
order (e.g. `CURTAIN` maps to `c`, not the curtain-3 tag). -/
def modelToChar (m : SwitchbotModel) : Option Nat :=
  SUPPORTED_TYPES.foldl (fun acc p => if p.2.modelName = m then some p.1 else acc) none

/-- `MFR_DATA_ORDER`: the manufacturer ids the parser recognises, which are
also exactly the keys of `MODELS_BY_MANUFACTURER_DATA`. -/
def MFR_DATA_ORDER : List Nat := [2409, 741, 89]

/-- `MODELS_BY_MANUFACTURER_DATA[mfrId]`: registry entries with the given
manufacturer id, in insertion (source) order. -/
def MODELS_BY_MANUFACTURER_DATA (mfrId : Nat) : List (Nat × SupportedType) :=
  SUPPORTED_TYPES.filter (fun p => p.2.mfrId = some mfrId)

/-- `SUPPORTED_TYPES.get(_model)`. -/
def lookupType (c : Nat) : Option SupportedType :=
  match SUPPORTED_TYPES.find? (fun p => p.1 = c) with
  | some p => some p.2
  | none => none

/-! ### Model-tag selection (`_parse_data`, lines 269-281) -/

/-- The model-selection part of `_parse_data`:

  * `_model = chr(_service_data[0] & 0b01111111) if _service_data else None`
    (an empty byte string is falsy, like `None`);
  * a registered `_switchbot_model` hint then **overwrites** `_model`;
  * if `_model` is still `None`, a recognised manufacturer id triggers the
    length heuristic over `MODELS_BY_MANUFACTURER_DATA` — note that this
    branch evaluates `len(_mfr_data)` and therefore raises `TypeError`
    (modelled as `Except.error`) when `_mfr_data` is `None`.

Returns `ok none` when no model can be determined (`_parse_data` then
returns `None`). -/
def selectModelChar (sd : Option (List Nat)) (mfr : Option (List Nat))
    (mfrId : Option Nat) (hint : Option SwitchbotModel) : Except Unit (Option Nat) :=
  let m0 : Option Nat :=
    match sd with
    | some (b :: _) => some (b &&& 127)
    | _ => none
  let m1 : Option Nat :=
    match hint with
    | some h =>
      match modelToChar h with
      | some c => some c
      | none => m0
    | none => m0
  match m1 with
  | some c => .ok (some c)
  | none =>
    match mfrId with
    | none => .ok none
    | some 0 => .ok none
    | some id =>
      if id ∈ MFR_DATA_ORDER then
        match mfr with
        | none => .error ()
        | some d =>
          match (MODELS_BY_MANUFACTURER_DATA id).find?
              (fun p => p.2.mfrLen = some d.length) with
          | some p => .ok (some p.1)
          | none => .ok none
      else .ok none

/-! ### Decoder output values -/

/-- A value in a decoder's field map: Python `bool | int | None`. -/
inductive FieldVal where
  | vb (b : Bool)
  | vn (n : Nat)
  | vnull
  deriving DecidableEq, Repr

/-- The type of a registered decode function: both byte sources may be
absent; `Except.error` models a raised exception. -/
def DecoderFun : Type :=
  Option (List Nat) → Option (List Nat) → Except Unit (List (String × FieldVal))

/-! ### The `_parse_data` result record -/

/-- The dict built by `_parse_data` (lines 283-303).  `modelName` is `none`
when the decoder produced no (or an empty / falsy) field map, in which case
`fields` stays `{}`. -/
structure ParseResult where
  rawAdvData : Option (List Nat)
  model : Nat
  isEncrypted : Bool
  modelName : Option SwitchbotModel
  fields : List (String × FieldVal)
  deriving DecidableEq, Repr

/-- `_parse_data`, parameterised by the table of decode functions (keyed by
model-tag character code) so that registry dispatch is exact while the
per-model decoders stay pluggable.  `_isEncrypted` is bit 7 of the first
service-data byte and `False` whenever service data is absent or empty. -/
def parseDataWith (decoders : Nat → DecoderFun) (sd mfr : Option (List Nat))
    (mfrId : Option Nat) (hint : Option SwitchbotModel) :
    Except Unit (Option ParseResult) :=
  match selectModelChar sd mfr mfrId hint with
  | .error () => .error ()
  | .ok none => .ok none
  | .ok (some c) =>
    let isEnc : Bool :=
      match sd with
      | some (b :: _) => decide (b &&& 128 ≠ 0)
      | _ => false
    match lookupType c with
    | none => .ok (some ⟨sd, c, isEnc, none, []⟩)
    | some t =>
      match decoders c sd mfr with
      | .error () => .error ()
      | .ok fs =>
        if fs = [] then .ok (some ⟨sd, c, isEnc, none, []⟩)
        else .ok (some ⟨sd, c, isEnc, some t.modelName, fs⟩)

/-! ### Representative decoders (`switchbot/adv_parsers/`) -/

/-- `process_wocurtain` (`adv_parsers/curtain.py`).  The function indexes
`data[1] .. data[4]` unconditionally, so a `None` or too-short service-data
blob raises (`TypeError` / `IndexError`), modelled as `Except.error`;
`mfr_data` is never read. -/
def process_wocurtain (data : Option (List Nat)) (_mfr : Option (List Nat))
    (reverse : Bool) : Except Unit (List (String × FieldVal)) :=
  match data with
  | none => .error ()
  | some d =>
    if d.length < 5 then .error ()
    else
      let pos := min (d.getD 3 0 &&& 127) 100
      .ok [ ("calibration", .vb (decide (d.getD 1 0 &&& 64 ≠ 0))),
            ("paired", .vb (decide (d.getD 1 0 &&& 16 = 0))),
            ("battery", .vn (d.getD 2 0 &&& 127)),
            ("inMotion", .vb (decide (d.getD 3 0 &&& 128 ≠ 0))),
            ("position", .vn (if reverse then 100 - pos else pos)),
            ("lightLevel", .vn ((d.getD 4 0 >>> 4) &&& 15)),
            ("deviceChain", .vn (d.getD 4 0 &&& 7)) ]

/-- `process_wohand` (`adv_parsers/bot.py`).  Indexes `data[1]` and
`data[2]` unconditionally; `mfr_data` is never read. -/
def process_wohand (data : Option (List Nat)) (_mfr : Option (List Nat)) :
    Except Unit (List (String × FieldVal)) :=
  match data with
  | none => .error ()
  | some d =>
    if d.length < 3 then .error ()
    else
      let sw := decide (d.getD 1 0 &&& 128 ≠ 0)
      .ok [ ("switchMode", .vb sw),
            ("isOn", .vb (if sw then decide (d.getD 1 0 &&& 64 = 0) else false)),
            ("battery", .vn (d.getD 2 0 &&& 127)) ]

/-- `process_woblindtilt` (`adv_parsers/blind_tilt.py`).  Returns the empty
map when `mfr_data` is `None`; otherwise reads `mfr_data[6:]` at offsets
0-2 (raising when too short) and reports `battery = None` when the
service-data blob is absent or empty. -/
def process_woblindtilt (data : Option (List Nat)) (mfr : Option (List Nat))
    (reverse : Bool) : Except Unit (List (String × FieldVal)) :=
  match mfr with
  | none => .ok []
  | some m =>
    let dd := m.drop 6
    if dd.length < 3 then .error ()
    else
      let tilt := min (dd.getD 2 0 &&& 127) 100
      let battery : Except Unit FieldVal :=
        match data with
        | some (b :: bs) =>
          if (b :: bs).length < 3 then .error ()
          else .ok (.vn ((b :: bs).getD 2 0 &&& 127))
        | _ => .ok .vnull
      match battery with
      | .error () => .error ()
      | .ok batt =>
        .ok [ ("calibration", .vb (decide (dd.getD 1 0 &&& 1 ≠ 0))),
              ("battery", batt),
              ("inMotion", .vb (decide (dd.getD 2 0 &&& 128 ≠ 0))),
              ("tilt", .vn (if reverse then 100 - tilt else tilt)),
              ("lightLevel", .vn ((dd.getD 1 0 >>> 4) &&& 15)),
              ("sequence_number", .vn (dd.getD 0 0)) ]

/-! ### Command engine retry loop
(`SwitchbotBaseDevice._send_command`, `devices/device.py` lines 129-186) -/

/-- What one call of `_send_command_locked` does, as observed by the retry
loop: return response bytes, or raise one of the three caught exception
classes (`BleakNotFoundError`, `CharacteristicMissingError`, or one of
`BLEAK_RETRY_EXCEPTIONS`, which includes the notification timeout). -/
inductive AttemptOutcome where
  | success (resp : List Nat)
  | notFound
  | charMissing
  | transient
  deriving DecidableEq, Repr

/-- The exception classes `_send_command` can let escape. -/
inductive CommandError where
  | notFound
  | charMissing
  | transient
  deriving DecidableEq, Repr

/-- The body of `for attempt in range(retry + 1)`: `attempt` is the current
zero-based index and `remaining + 1` the number of loop iterations left
(so `remaining = 0` exactly when `attempt == retry`).  `notFound` re-raises
unconditionally; the other two exception classes re-raise only on the last
iteration.  Returns the result together with the number of attempts made. -/
def sendCommandAux (transport : Nat → AttemptOutcome) :
    Nat → Nat → Except CommandError (List Nat) × Nat
  | attempt, 0 => (.error .transient, attempt)
  | attempt, remaining + 1 =>
    match transport attempt with
    | .success r => (.ok r, attempt + 1)
    | .notFound => (.error .notFound, attempt + 1)
    | .charMissing =>
      if remaining = 0 then (.error .charMissing, attempt + 1)
      else sendCommandAux transport (attempt + 1) remaining
    | .transient =>
      if remaining = 0 then (.error .transient, attempt + 1)
      else sendCommandAux transport (attempt + 1) remaining

/-- `_send_command` with a given retry budget: `max_attempts = retry + 1`. -/
def sendCommand (transport : Nat → AttemptOutcome) (retry : Nat) :
    Except CommandError (List Nat) × Nat :=
  sendCommandAux transport 0 (retry + 1)

/-! ### Result checking (`SwitchbotBaseDevice._check_command_result`) -/

/-- `_check_command_result(result, index, values)`: raises
`SwitchbotOperationError` when `not result or len(result) - 1 < index`,
else returns `result[index] in values`. -/
def checkCommandResult (result : Option (List Nat)) (index : Nat)
    (values : List Nat) : Except Unit Bool :=
  match result with
  | none => .error ()
  | some r =>
    if r.length = 0 ∨ r.length - 1 < index then .error ()
    else .ok (r.getD index 0 ∈ values)

/-! ### Lock session encryption (`devices/lock.py`)

The AES-128 block permutation itself lives in the external `cryptography`
library; it enters the model as an abstract parameter
`block : List Nat → List Nat` (the encryption of one 16-byte counter block
under the pre-shared key).  CTR mode as used by `modes.CTR(iv)` treats the
whole 16-byte IV as the initial counter value (big endian, wrapping mod
2^128) and XORs the byte stream of successive encrypted counter blocks into
the data.  Both `_encrypt` and `_decrypt` build a fresh streaming context
from `self._get_cipher()`, so each starts from counter 0 of the session
IV. -/

/-- Big-endian byte-string to natural number. -/
def bytesToNatBE (bs : List Nat) : Nat :=
  bs.foldl (fun acc b => acc * 256 + b % 256) 0

/-- `natToBytesBE w n`: the low `w` bytes of `n`, big endian. -/
def natToBytesBE : Nat → Nat → List Nat
  | 0, _ => []
  | w + 1, n => natToBytesBE w (n / 256) ++ [n % 256]

/-- The `i`-th CTR counter block for a session IV. -/
def ctrCounterBlock (iv : List Nat) (i : Nat) : List Nat :=
  natToBytesBE 16 ((bytesToNatBE iv + i) % 2 ^ 128)

/-- Byte `i` of the AES-CTR keystream for `(block, iv)`. -/
def aesCtrKeystream (block : List Nat → List Nat) (iv : List Nat) (i : Nat) : Nat :=
  (block (ctrCounterBlock iv (i / 16))).getD (i % 16) 0 % 256

/-- XOR a byte list against a keystream starting at stream position `i`. -/
def xorKeystream (ks : Nat → Nat) : Nat → List Nat → List Nat
  | _, [] => []
  | i, b :: bs => (b ^^^ ks i % 256) :: xorKeystream ks (i + 1) bs

/-- `SwitchbotLock._encrypt`: empty input short-circuits to the empty
string; otherwise the payload is XORed with the session keystream from
position 0. -/
def lockEncrypt (block : List Nat → List Nat) (iv : List Nat)
    (data : List Nat) : List Nat :=
  if data.isEmpty then [] else xorKeystream (aesCtrKeystream block iv) 0 data

/-- `SwitchbotLock._decrypt`: identical keystream XOR (CTR decryption),
again from position 0 of a fresh streaming context. -/
def lockDecrypt (block : List Nat → List Nat) (iv : List Nat)
    (data : List Nat) : List Nat :=
  if data.isEmpty then [] else xorKeystream (aesCtrKeystream block iv) 0 data

/-- The encrypted wire frame built in `SwitchbotLock._send_command`:
`key[:2] + self._key_id + self._iv[0:2].hex() + self._encrypt(key[2:])`.
The slices are on **hex strings**, so `key[:2]` is the first byte of the
command and `key[2:]` everything from byte 1 on; `_key_id` is a 2-hex-char
string, i.e. one byte. -/
def buildEncryptedFrame (block : List Nat → List Nat) (keyId : Nat)
    (iv : List Nat) (key : List Nat) : List Nat :=
  key.take 1 ++ [keyId % 256] ++ iv.take 2 ++ lockEncrypt block iv (key.drop 1)

/-- The unencrypted wire frame (`encrypt=False` branch):
`key[:2] + "000000" + key[2:]` — a zero key id and a zero 2-byte IV
fragment spliced in after the first byte. -/
def buildUnencryptedFrame (key : List Nat) : List Nat :=
  key.take 1 ++ [0, 0, 0] ++ key.drop 1

/-- The response post-processing of an encrypted command
(`result[:1] + self._decrypt(result[4:])`): the raw status byte followed by
the decryption of everything from offset 4. -/
def lockProcessResponse (block : List Nat → List Nat) (iv : List Nat)
    (result : List Nat) : List Nat :=
  result.take 1 ++ lockDecrypt block iv (result.drop 4)

/-- `COMMAND_GET_CK_IV + key_id` as bytes: `"570f2103"` followed by the
one-byte key id. -/
def COMMAND_GET_CK_IV (keyId : Nat) : List Nat := [87, 15, 33, 3, keyId % 256]

/-- `COMMAND_RESULT_EXPECTED_VALUES = {1, 6}`. -/
def COMMAND_RESULT_EXPECTED_VALUES : List Nat := [1, 6]

/-! ### Lock session state machine -/

/-- The encryption-related fields of a `SwitchbotLock`: `_iv`, `_cipher`
(recorded as the IV the cached cipher object was built from) and
`_notifications_enabled`. -/
structure LockCipherState where
  iv : Option (List Nat)
  cipher : Option (List Nat)
  notificationsEnabled : Bool
  deriving DecidableEq, Repr

/-- `SwitchbotLock._execute_disconnect`: after the base-class teardown it
unconditionally sets `_iv = None`, `_cipher = None` and
`_notifications_enabled = False`. -/
def lockExecuteDisconnect (_s : LockCipherState) : LockCipherState :=
  ⟨none, none, false⟩

/-- One client-side operation of a session trace:

  * `disconnect` — the engine's own teardown (`_execute_disconnect`,
    reached from `_execute_forced_disconnect` on a command error or from
    `_execute_timed_disconnect` on idle expiry), which clears the cipher
    state;
  * `unexpectedDisconnect` — a transport-initiated disconnect, which only
    invokes the logging `_disconnected` callback (`devices/device.py`
    lines 248-259) and touches none of `_iv` / `_cipher` /
    `_notifications_enabled`;
  * `encCommand` — an encrypted command carrying the device's response
    (`negResp`) to the IV negotiation that is performed first whenever no
    IV is held. -/
inductive LockOp where
  | disconnect
  | unexpectedDisconnect
  | encCommand (key : List Nat) (negResp : List Nat)
  deriving DecidableEq, Repr

/-- One step of the lock session machine, returning the new state and the
frames written to the wire, mirroring `_send_command` (encrypt path),
`_ensure_encryption_initialized` and the two disconnect paths:

  * `disconnect` runs the engine teardown `_execute_disconnect`, which
    clears `_iv`, `_cipher` and `_notifications_enabled`;
  * `unexpectedDisconnect` runs only the `_disconnected` logging callback,
    which returns without modifying any of those fields — the surviving
    state carries over to the transparently reconnected next session;
  * `encCommand` with an IV held: `_ensure_encryption_initialized` returns
    immediately and the encrypted frame is built with the cached cipher
    (constructed from the session IV on first use), whether or not a
    disconnect/reconnect happened since the IV was negotiated;
  * `encCommand` with no IV: the unencrypted `COMMAND_GET_CK_IV` frame is
    sent first; on a `{1, 6}` status the IV becomes `result[4:]` and the
    encrypted frame follows; on a failed check no encrypted frame is sent
    and the IV stays `None` (`_check_command_result` raising behaves the
    same at the wire level). -/
def lockStep (block : List Nat → List Nat) (keyId : Nat)
    (s : LockCipherState) : LockOp → LockCipherState × List (List Nat)
  | .disconnect => (lockExecuteDisconnect s, [])
  | .unexpectedDisconnect => (s, [])
  | .encCommand key negResp =>
    match s.iv with
    | some iv =>
      let civ := s.cipher.getD iv
      ({ s with cipher := some civ }, [buildEncryptedFrame block keyId civ key])
    | none =>
      let negFrame := buildUnencryptedFrame (COMMAND_GET_CK_IV keyId)
      match checkCommandResult (some negResp) 0 COMMAND_RESULT_EXPECTED_VALUES with
      | .error () => (s, [negFrame])
      | .ok false => (s, [negFrame])
      | .ok true =>
        let freshIv := negResp.drop 4
        ({ s with iv := some freshIv, cipher := some freshIv },
          [negFrame, buildEncryptedFrame block keyId freshIv key])

/-- Run a list of operations, collecting every frame written. -/
def lockRun (block : List Nat → List Nat) (keyId : Nat)
    (s : LockCipherState) : List LockOp → LockCipherState × List (List Nat)
  | [] => (s, [])
  | op :: ops =>
    let step := lockStep block keyId s op
    let rest := lockRun block keyId step.1 ops
    (rest.1, step.2 ++ rest.2)

/-- Decidable equality for `Except`, used to evaluate the embedded
functions on concrete inputs. -/
instance instExceptDecEq {ε α : Type} [DecidableEq ε] [DecidableEq α] :
    DecidableEq (Except ε α) := fun a b =>
  match a, b with
  | .error x, .error y =>
    if h : x = y then .isTrue (by rw [h])
    else .isFalse (by intro hh; cases hh; exact h rfl)
  | .ok x, .ok y =>
    if h : x = y then .isTrue (by rw [h])
    else .isFalse (by intro hh; cases hh; exact h rfl)
  | .error _, .ok _ => .isFalse (fun hh => Except.noConfusion hh)
  | .ok _, .error _ => .isFalse (fun hh => Except.noConfusion hh)

/-! ### Helper lemmas -/

theorem xorKeystream_length (ks : Nat → Nat) :
    ∀ (i : Nat) (l : List Nat), (xorKeystream ks i l).length = l.length := by
  intro i l
  induction l generalizing i with
  | nil => rfl
  | cons b bs ih => simp [xorKeystream, ih]

theorem xorKeystream_getD (ks : Nat → Nat) :
    ∀ (l : List Nat) (j i : Nat), i < l.length →
      (xorKeystream ks j l).getD i 0 = l.getD i 0 ^^^ ks (j + i) % 256 := by
  intro l
  induction l with
  | nil => intro j i hi; simp at hi
  | cons b bs ih =>
    intro j i hi
    cases i with
    | zero => simp [xorKeystream]
    | succ i =>
      have hbs : i < bs.length := by simpa using hi
      have := ih (j + 1) i hbs
      simpa [xorKeystream, Nat.add_assoc, Nat.add_comm, Nat.add_left_comm] using this

theorem xorKeystream_invol (ks : Nat → Nat) :
    ∀ (i : Nat) (l : List Nat), xorKeystream ks i (xorKeystream ks i l) = l := by
  intro i l
  induction l generalizing i with
  | nil => rfl
  | cons b bs ih =>
    simp [xorKeystream, ih, Nat.xor_assoc]

theorem getD_drop (l : List Nat) :
    ∀ (n i : Nat), (l.drop n).getD i 0 = l.getD (n + i) 0 := by
  induction l with
  | nil => intro n i; simp
  | cons b bs ih =>
    intro n i
    cases n with
    | zero => simp
    | succ n =>
      have h1 : n + 1 + i = n + i + 1 := by omega
      rw [List.drop_succ_cons, h1, List.getD_cons_succ]
      exact ih n i

theorem sendCommandAux_succ (transport : Nat → AttemptOutcome)
    (attempt rem : Nat) :
    sendCommandAux transport attempt (rem + 1) =
      match transport attempt with
      | .success r => (.ok r, attempt + 1)
      | .notFound => (.error .notFound, attempt + 1)
      | .charMissing =>
        if rem = 0 then (.error .charMissing, attempt + 1)
        else sendCommandAux transport (attempt + 1) rem
      | .transient =>
        if rem = 0 then (.error .transient, attempt + 1)
        else sendCommandAux transport (attempt + 1) rem := rfl

theorem sendCommandAux_transient (transport : Nat → AttemptOutcome)
    (h : ∀ i, transport i = .transient) :
    ∀ (rem attempt : Nat),
      sendCommandAux transport attempt (rem + 1) =
        (.error .transient, attempt + rem + 1) := by
  intro rem
  induction rem with
  | zero => intro attempt; rw [sendCommandAux_succ, h attempt]; rfl
  | succ rem ih =>
    intro attempt
    rw [sendCommandAux_succ, h attempt]
    dsimp only
    rw [if_neg (Nat.succ_ne_zero rem), ih (attempt + 1)]
    have : attempt + 1 + rem + 1 = attempt + (rem + 1) + 1 := by omega
    rw [this]

theorem sendCommandAux_notFound (transport : Nat → AttemptOutcome) :
    ∀ (k attempt rem : Nat), k ≤ rem →
      transport (attempt + k) = .notFound →
      (∀ j, j < k →
        transport (attempt + j) = .transient ∨ transport (attempt + j) = .charMissing) →
      sendCommandAux transport attempt (rem + 1) =
        (.error .notFound, attempt + k + 1) := by
  intro k
  induction k with
  | zero =>
    intro attempt rem _ hnf _
    simp only [Nat.add_zero] at hnf
    rw [sendCommandAux_succ, hnf]
  | succ k ih =>
    intro attempt rem hle hnf hbefore
    obtain ⟨rem, rfl⟩ : ∃ m, rem = m + 1 := ⟨rem - 1, by omega⟩
    have hrec : sendCommandAux transport (attempt + 1) (rem + 1) =
        (.error .notFound, attempt + 1 + k + 1) := by
      refine ih (attempt + 1) rem (by omega) ?_ ?_
      · have : attempt + 1 + k = attempt + (k + 1) := by omega
        rw [this]; exact hnf
      · intro j hj
        have : attempt + 1 + j = attempt + (j + 1) := by omega
        rw [this]; exact hbefore (j + 1) (by omega)
    have h0 := hbefore 0 (by omega)
    simp only [Nat.add_zero] at h0
    have harith : attempt + 1 + k + 1 = attempt + (k + 1) + 1 := by omega
    rcases h0 with h0 | h0 <;>
      · rw [sendCommandAux_succ, h0]
        dsimp only
        rw [if_neg (Nat.succ_ne_zero rem), hrec, harith]

theorem lockDecrypt_length (block : List Nat → List Nat) (iv l : List Nat) :
    (lockDecrypt block iv l).length = l.length := by
  cases l with
  | nil => rfl
  | cons b bs =>
    have : lockDecrypt block iv (b :: bs) =
        xorKeystream (aesCtrKeystream block iv) 0 (b :: bs) := rfl
    rw [this, xorKeystream_length]

/-! ### Claim theorems -/

/-- Claim C5: for every payload of 0 to 64 bytes, any key (entering through
the abstract AES block function) and any negotiated IV, decrypting the
encryption of the payload with the same session cipher yields the payload
back (`SwitchbotLock._decrypt` after `SwitchbotLock._encrypt` is the
identity, both streaming from counter 0 of the session IV). -/
theorem lock_ctr_roundtrip (block : List Nat → List Nat) (iv payload : List Nat)
    (hlen : payload.length ≤ 64) :
    lockDecrypt block iv (lockEncrypt block iv payload) = payload := by
  cases payload with
  | nil => rfl
  | cons b bs =>
    have hred : lockDecrypt block iv (lockEncrypt block iv (b :: bs)) =
        xorKeystream (aesCtrKeystream block iv) 0
          (xorKeystream (aesCtrKeystream block iv) 0 (b :: bs)) := rfl
    rw [hred, xorKeystream_invol]

/-- Witness for C5 at a concrete block function, IV and 3-byte payload. -/
theorem lock_ctr_roundtrip_witness :
    lockDecrypt (fun _ => List.replicate 16 171) (List.replicate 16 7)
        (lockEncrypt (fun _ => List.replicate 16 171) (List.replicate 16 7) [1, 2, 3])
      = [1, 2, 3] :=
  lock_ctr_roundtrip (fun _ => List.replicate 16 171) (List.replicate 16 7)
    [1, 2, 3] (by decide)

/-- Claim C7: with `retries = N` against a transport whose every attempt
fails with a transient error, `_send_command` makes exactly `N + 1`
attempts and then propagates the failure. -/
theorem retry_exhaustion_attempts (transport : Nat → AttemptOutcome) (retry : Nat)
    (h : ∀ i, transport i = .transient) :
    sendCommand transport retry = (.error .transient, retry + 1) := by
  have := sendCommandAux_transient transport h retry 0
  simpa [sendCommand] using this

/-- Witness for C7: an always-transient transport with `retries = 2` makes
exactly 3 attempts and fails. -/
theorem retry_exhaustion_attempts_witness :
    sendCommand (fun _ => AttemptOutcome.transient) 2 =
      (.error .transient, 3) :=
  retry_exhaustion_attempts (fun _ => AttemptOutcome.transient) 2 (fun _ => rfl)

/-- Claim C8: a device-not-found error is propagated on the attempt where
it occurs with no further retries, regardless of remaining budget. -/
theorem device_not_found_immediate (transport : Nat → AttemptOutcome)
    (retry k : Nat) (hk : k ≤ retry) (hnf : transport k = .notFound)
    (hbefore : ∀ i, i < k →
      transport i = .transient ∨ transport i = .charMissing) :
    sendCommand transport retry = (.error .notFound, k + 1) := by
  have := sendCommandAux_notFound transport k 0 retry hk
    (by simpa using hnf) (by simpa using hbefore)
  simpa [sendCommand] using this

/-- Witness for C8: not-found on the third attempt with `retries = 5`
stops after exactly 3 attempts. -/
theorem device_not_found_immediate_witness :
    sendCommand (fun i => if i = 2 then AttemptOutcome.notFound else .transient) 5 =
      (.error .notFound, 3) :=
  device_not_found_immediate _ 5 2 (by omega) rfl
    (fun i hi => Or.inl (if_neg (by omega)))

/-- Claim C9: `_check_command_result` raises exactly when the result is
absent (`None` or empty) or too short for the index (`length <= index`);
otherwise it returns whether the byte at the index is in the accepted set. -/
theorem check_command_result_spec (result : Option (List Nat)) (index : Nat)
    (values : List Nat) :
    (checkCommandResult result index values = .error () ↔
      result = none ∨ ∃ r, result = some r ∧ r.length ≤ index) ∧
    (∀ r, result = some r → index < r.length →
      (checkCommandResult result index values = .ok true ↔
        r.getD index 0 ∈ values)) := by
  constructor
  · cases result with
    | none => simp [checkCommandResult]
    | some r =>
      have hiff : (r.length = 0 ∨ r.length - 1 < index) ↔ r.length ≤ index := by
        omega
      by_cases hc : r.length ≤ index
      · rw [checkCommandResult, if_pos (hiff.mpr hc)]
        exact ⟨fun _ => Or.inr ⟨r, rfl, hc⟩, fun _ => rfl⟩
      · rw [checkCommandResult, if_neg (fun hx => hc (hiff.mp hx))]
        constructor
        · intro h; exact Except.noConfusion h
        · rintro (h | ⟨r2, hr2, hlen⟩)
          · exact Option.noConfusion h
          · obtain rfl : r = r2 := by injection hr2
            exact absurd hlen hc
  · intro r hr hlen
    subst hr
    have h0 : ¬(r.length = 0 ∨ r.length - 1 < index) := by omega
    rw [checkCommandResult, if_neg h0]
    simp

/-- Witness for C9 at a concrete successful result. -/
theorem check_command_result_spec_witness :
    checkCommandResult (some [1, 6]) 0 [1, 6] = .ok true ↔
      ([1, 6] : List Nat).getD 0 0 ∈ ([1, 6] : List Nat) :=
  (check_command_result_spec (some [1, 6]) 0 [1, 6]).2 [1, 6] rfl (by decide)

/-- Claim C1 counterexample: with service data present (tag byte `72`, the
Bot tag) and a registered curtain hint, `_parse_data` selects the hint's
tag `99` (`c`), not `service_data[0] & 0x7F = 72` — the hint is consulted
(and wins) even when service data is present. -/
theorem adv_model_hint_overrides_service_tag :
    selectModelChar (some [72, 64, 100]) none none (some SwitchbotModel.curtain) =
      .ok (some 99) ∧
    (72 : Nat) &&& 127 = 72 ∧ (99 : Nat) ≠ 72 :=
  ⟨rfl, by decide, by decide⟩

/-- Claim C1 (amended): when no model hint is given, a present (non-empty)
`service_data` selects the tag `service_data[0] & 0x7F`; a registered model
hint, however, takes precedence over the service-data tag whenever it is
supplied. -/
theorem adv_model_selection_precedence :
    (∀ (b : Nat) (rest : List Nat) (mfr : Option (List Nat)) (mfrId : Option Nat),
      selectModelChar (some (b :: rest)) mfr mfrId none = .ok (some (b &&& 127))) ∧
    (∀ (sd mfr : Option (List Nat)) (mfrId : Option Nat)
        (h : SwitchbotModel) (c : Nat),
      modelToChar h = some c →
      selectModelChar sd mfr mfrId (some h) = .ok (some c)) := by
  constructor
  · intro b rest mfr mfrId
    rfl
  · intro sd mfr mfrId h c hc
    simp [selectModelChar, hc]

/-- Witness for C1 (amended): service tag used without a hint; the
registered lock-pro hint overriding a present Bot service tag. -/
theorem adv_model_selection_precedence_witness :
    selectModelChar (some [99, 64]) none none none = .ok (some (99 &&& 127)) ∧
    selectModelChar (some [72, 64]) none (some 2409) (some SwitchbotModel.lockPro) =
      .ok (some 36) :=
  ⟨adv_model_selection_precedence.1 99 [64] none none,
   adv_model_selection_precedence.2 (some [72, 64]) none (some 2409)
     SwitchbotModel.lockPro 36 (by decide)⟩

/-- Claim C2 (code bug): called passively (service data absent,
manufacturer data present), the curtain and bot decoders raise instead of
returning a field map — the curtain input here is the exact passive
advertisement of `test_parse_advertisement_data_curtain_passive` and the
bot input that of `test_switchbot_passive`, both of which expect a
successful decode with `None`-valued service-data-only fields.  The blind
tilt decoder, by contrast, tolerates the absence of either source. -/
theorem passive_decode_raises_without_service_data :
    process_wocurtain none
        (some [231, 171, 70, 172, 143, 146, 124, 15, 0, 17, 4]) true = .error () ∧
    process_wohand none (some [213, 28, 251, 57, 120, 86]) = .error () ∧
    process_wocurtain (some [99, 192, 88, 0, 17, 4]) none true =
      .ok [ ("calibration", .vb true), ("paired", .vb true),
            ("battery", .vn 88), ("inMotion", .vb false),
            ("position", .vn 100), ("lightLevel", .vn 1),
            ("deviceChain", .vn 1) ] ∧
    process_woblindtilt none
        (some [231, 171, 70, 172, 143, 146, 124, 15, 0]) false =
      .ok [ ("calibration", .vb true), ("battery", .vnull),
            ("inMotion", .vb false), ("tilt", .vn 0),
            ("lightLevel", .vn 0), ("sequence_number", .vn 124) ] ∧
    process_woblindtilt (some [120, 0, 85]) none false = .ok [] :=
  ⟨rfl, rfl, rfl, rfl, rfl⟩

/-- Claim C3 counterexample: the encrypted frame keeps only the first
**byte** of the command in the clear (`key[:2]` slices a hex string), so
it differs from the frame the claim describes, in which the first two
bytes would precede the key id and only bytes from offset 2 would be
encrypted. -/
theorem encrypted_frame_two_byte_opcode_false :
    buildEncryptedFrame (fun _ => List.replicate 16 255) 1 [9, 9, 9, 9]
        [87, 15, 78, 1] = [87, 1, 9, 9, 240, 177, 254] ∧
    buildEncryptedFrame (fun _ => List.replicate 16 255) 1 [9, 9, 9, 9]
        [87, 15, 78, 1] ≠
      [87, 15] ++ [1] ++ [9, 9] ++
        lockEncrypt (fun _ => List.replicate 16 255) [9, 9, 9, 9] [78, 1] := by
  constructor
  · rfl
  · decide

/-- Claim C3 (amended): while the cipher is ready, only the payload bytes
after the **1-byte** opcode are encrypted, and the transmitted frame is
`opcode(1 byte) || key_id(1 byte) || iv[0:2] || ciphertext`, the
ciphertext being the keystream XOR of the command bytes from offset 1. -/
theorem encrypted_frame_layout (block : List Nat → List Nat) (keyId : Nat)
    (iv key frame : List Nat) (hiv : 2 ≤ iv.length) (hkey : key ≠ [])
    (hframe : frame = buildEncryptedFrame block keyId iv key) :
    frame.length = 4 + (key.length - 1) ∧
    frame.getD 0 0 = key.getD 0 0 ∧
    frame.getD 1 0 = keyId % 256 ∧
    frame.getD 2 0 = iv.getD 0 0 ∧
    frame.getD 3 0 = iv.getD 1 0 ∧
    ∀ i, i < key.length - 1 →
      frame.getD (4 + i) 0 =
        key.getD (1 + i) 0 ^^^ aesCtrKeystream block iv i % 256 := by
  subst hframe
  obtain ⟨k0, krest, rfl⟩ : ∃ a l, key = a :: l := by
    cases key with
    | nil => exact absurd rfl hkey
    | cons a l => exact ⟨a, l, rfl⟩
  obtain ⟨i0, i1, ivrest, rfl⟩ : ∃ a b l, iv = a :: b :: l := by
    cases iv with
    | nil => simp at hiv
    | cons a t =>
      cases t with
      | nil => simp at hiv
      | cons b l => exact ⟨a, b, l, rfl⟩
  have hbuild : buildEncryptedFrame block keyId (i0 :: i1 :: ivrest) (k0 :: krest) =
      k0 :: keyId % 256 :: i0 :: i1 ::
        lockEncrypt block (i0 :: i1 :: ivrest) krest := by
    simp [buildEncryptedFrame]
  rw [hbuild]
  refine ⟨?_, rfl, rfl, rfl, rfl, ?_⟩
  · have hlen := lockDecrypt_length block (i0 :: i1 :: ivrest) krest
    have hsame : lockEncrypt block (i0 :: i1 :: ivrest) krest =
        lockDecrypt block (i0 :: i1 :: ivrest) krest := rfl
    simp [hsame, hlen]
    omega
  · intro i hi
    have hi2 : i < krest.length := by simpa using hi
    cases krest with
    | nil => simp at hi2
    | cons b bs =>
      have he : lockEncrypt block (i0 :: i1 :: ivrest) (b :: bs) =
          xorKeystream (aesCtrKeystream block (i0 :: i1 :: ivrest)) 0 (b :: bs) := rfl
      rw [he]
      have h4 : 4 + i = i + 1 + 1 + 1 + 1 := by omega
      have h1 : 1 + i = i + 1 := by omega
      rw [h4, h1, List.getD_cons_succ, List.getD_cons_succ, List.getD_cons_succ,
        List.getD_cons_succ, List.getD_cons_succ]
      rw [xorKeystream_getD _ _ 0 i hi2]
      rw [Nat.zero_add]

/-- Witness for C3 (amended) at a concrete frame: with an all-zero
keystream the frame is `[87, 5, 1, 2, 15, 78]` for command
`[87, 15, 78]`, key id 5 and IV `[1, 2, 3]`. -/
theorem encrypted_frame_layout_witness :
    ([87, 5, 1, 2, 15, 78] : List Nat).getD 0 0 =
      ([87, 15, 78] : List Nat).getD 0 0 ∧
    ([87, 5, 1, 2, 15, 78] : List Nat).getD (4 + 0) 0 =
      ([87, 15, 78] : List Nat).getD (1 + 0) 0 ^^^
        aesCtrKeystream (fun _ => List.replicate 16 0) [1, 2, 3] 0 % 256 :=
  ⟨(encrypted_frame_layout (fun _ => List.replicate 16 0) 5 [1, 2, 3]
      [87, 15, 78] [87, 5, 1, 2, 15, 78] (by decide) (by decide) (by decide)).2.1,
   (encrypted_frame_layout (fun _ => List.replicate 16 0) 5 [1, 2, 3]
      [87, 15, 78] [87, 5, 1, 2, 15, 78] (by decide) (by decide)
      (by decide)).2.2.2.2.2 0 (by decide)⟩

/-- Claim C4: for an encrypted command's notification response, byte 0 is
returned raw (never run through the cipher), bytes 1-3 are dropped as
protocol framing, and only bytes from offset 4 are decrypted; the returned
value is byte 0 followed by the decryption of `result[4:]`. -/
theorem lock_response_status_raw (block : List Nat → List Nat)
    (iv r out : List Nat) (hr : r ≠ [])
    (hout : out = lockProcessResponse block iv r) :
    out.getD 0 0 = r.getD 0 0 ∧
    out.drop 1 = lockDecrypt block iv (r.drop 4) ∧
    out.length = 1 + (r.length - 4) ∧
    ∀ i, i < r.length - 4 →
      out.getD (1 + i) 0 =
        r.getD (4 + i) 0 ^^^ aesCtrKeystream block iv i % 256 := by
  subst hout
  obtain ⟨r0, rr, rfl⟩ : ∃ a l, r = a :: l := by
    cases r with
    | nil => exact absurd rfl hr
    | cons a l => exact ⟨a, l, rfl⟩
  have hred : lockProcessResponse block iv (r0 :: rr) =
      r0 :: lockDecrypt block iv ((r0 :: rr).drop 4) := by
    simp [lockProcessResponse]
  rw [hred]
  refine ⟨rfl, by simp, ?_, ?_⟩
  · simp [lockDecrypt_length, List.length_drop]
    omega
  · intro i hi
    have hlt : i < ((r0 :: rr).drop 4).length := by
      rw [List.length_drop]; exact hi
    rcases hd : (r0 :: rr).drop 4 with _ | ⟨b, bs⟩
    · rw [hd] at hlt; simp at hlt
    · have he : lockDecrypt block iv (b :: bs) =
          xorKeystream (aesCtrKeystream block iv) 0 (b :: bs) := rfl
      rw [he]
      have h1 : 1 + i = i + 1 := by omega
      rw [h1, List.getD_cons_succ]
      rw [hd] at hlt
      rw [xorKeystream_getD _ _ 0 i hlt, Nat.zero_add]
      congr 1
      rw [← hd, getD_drop]

/-- Witness for C4 at the concrete response `[1, 128, 100, 0, 10, 20]`
with an all-zero keystream: the processed value is `[1, 10, 20]`. -/
theorem lock_response_status_raw_witness :
    ([1, 10, 20] : List Nat).getD 0 0 =
      ([1, 128, 100, 0, 10, 20] : List Nat).getD 0 0 ∧
    ([1, 10, 20] : List Nat).getD (1 + 0) 0 =
      ([1, 128, 100, 0, 10, 20] : List Nat).getD (4 + 0) 0 ^^^
        aesCtrKeystream (fun _ => List.replicate 16 0) [1, 2] 0 % 256 :=
  ⟨(lock_response_status_raw (fun _ => List.replicate 16 0) [1, 2]
      [1, 128, 100, 0, 10, 20] [1, 10, 20] (by decide) (by decide)).1,
   (lock_response_status_raw (fun _ => List.replicate 16 0) [1, 2]
      [1, 128, 100, 0, 10, 20] [1, 10, 20] (by decide)
      (by decide)).2.2.2 0 (by decide)⟩

/-- Claim C6 (code bug): the claim is false of the code on a
transport-initiated unexpected disconnect.  Starting from a session whose
IV `[1, 2]` was negotiated, the `_disconnected` callback discards nothing
(state unchanged, first conjunct); the next encrypted command on the
transparently reconnected session then emits exactly one frame — no
unencrypted IV request, hence no fresh negotiation — and that frame
carries the previous session's IV bytes `1, 2` at offsets 2-3 with the
old-keystream ciphertext after them (second and third conjuncts): the IV
is reused across sessions.  Only the engine's own `_execute_disconnect`
teardown clears the IV and cipher (fourth conjunct). -/
theorem lock_unexpected_disconnect_iv_reuse :
    lockStep (fun _ => List.replicate 16 0) 5 ⟨some [1, 2], some [1, 2], true⟩
        LockOp.unexpectedDisconnect = (⟨some [1, 2], some [1, 2], true⟩, []) ∧
    lockRun (fun _ => List.replicate 16 0) 5 ⟨some [1, 2], some [1, 2], true⟩
        [LockOp.unexpectedDisconnect, LockOp.encCommand [87, 15, 78] []] =
      (⟨some [1, 2], some [1, 2], true⟩,
        [buildEncryptedFrame (fun _ => List.replicate 16 0) 5 [1, 2]
          [87, 15, 78]]) ∧
    buildEncryptedFrame (fun _ => List.replicate 16 0) 5 [1, 2] [87, 15, 78] =
      [87, 5, 1, 2, 15, 78] ∧
    lockStep (fun _ => List.replicate 16 0) 5 ⟨some [1, 2], some [1, 2], true⟩
        LockOp.disconnect = (⟨none, none, false⟩, []) := by
  refine ⟨rfl, ?_, by decide, rfl⟩
  decide

/-- Claim C10: every advertisement decoded without service data — via the
model hint or the manufacturer heuristic, for any decoder behaviour —
yields `isEncrypted = false`. -/
theorem passive_parse_never_encrypted (decoders : Nat → DecoderFun)
    (mfr : Option (List Nat)) (mfrId : Option Nat)
    (hint : Option SwitchbotModel) (r : ParseResult)
    (h : parseDataWith decoders none mfr mfrId hint = .ok (some r)) :
    r.isEncrypted = false := by
  unfold parseDataWith at h
  split at h
  · exact Except.noConfusion h
  · simp at h
  · split at h
    · contradiction
    · split at h
      · simp only [Except.ok.injEq, Option.some.injEq] at h
        subst h
        rfl
      · split at h
        · exact Except.noConfusion h
        · split at h
          · simp only [Except.ok.injEq, Option.some.injEq] at h
            subst h
            rfl
          · simp only [Except.ok.injEq, Option.some.injEq] at h
            subst h
            rfl

/-- Witness for C10: a passive (no service data) parse of the lock model
via the hint, whose commands require encryption, still reports
`isEncrypted = false`. -/
theorem passive_parse_never_encrypted_witness :
    parseDataWith (fun _ _ _ => .ok [("battery", FieldVal.vn 50)]) none
        (some [1, 2, 3, 4, 5, 6]) none (some SwitchbotModel.lock) =
      .ok (some ⟨none, 111, false, some SwitchbotModel.lock,
        [("battery", FieldVal.vn 50)]⟩) ∧
    (⟨none, 111, false, some SwitchbotModel.lock,
      [("battery", FieldVal.vn 50)]⟩ : ParseResult).isEncrypted = false :=
  ⟨by decide,
   passive_parse_never_encrypted (fun _ _ _ => .ok [("battery", FieldVal.vn 50)])
     (some [1, 2, 3, 4, 5, 6]) none (some SwitchbotModel.lock)
     ⟨none, 111, false, some SwitchbotModel.lock, [("battery", FieldVal.vn 50)]⟩
     (by decide)⟩

end PySwitchbot
